import Mathlib

set_option maxRecDepth 100000

/-!
Verification development for the "TheBus Honolulu" Alexa skill
(`src/gouldner/TheBus/src/index.js`, the TheBusHonolulu variant of the file).

The JavaScript source is shallowly embedded below:
* values delivered by the `xml2js` deserializer for the fields of the feed are
  modelled by `JsVal` (a present child element is either a plain string or an
  array of strings, depending on the parser configuration; a missing field is
  `undefined`), together with executable models of the JavaScript primitives
  the code applies to them (`ToString`/`ToPrimitive` on string concatenation,
  `ToNumber` coercion in `<=` and `==` comparisons, boolean truthiness,
  `parseInt`, and `String.prototype.replace` with a string pattern, which
  replaces only the first occurrence);
* the feed-translation function `processXml`, the fetch wrapper
  `makeTheBusCall`, the response emission of `getFinalBusResponse`, and the two
  slot-handling entry paths `handleStopDialogRequest` /
  `handleOneshotBusRequest` are translated statement by statement;
* code paths on which the JavaScript raises a `TypeError` that nothing in the
  file catches (property access on `undefined`) are modelled as
  `Except.error ()`.

The `console.log` statements and the module-level `routes` aggregation object
are elided: `routes` is reset before every `processXml` call, is only ever
written inside the arrival loop, and is never read into `speechOutput`, so it
has no effect on any narration or response the claims are about.
-/

/-- A value produced by the XML deserializer for one field of the feed:
a missing property (`undefined`), a plain string, or an array of strings. -/
inductive JsVal where
  | vundef : JsVal
  | vstr (s : String) : JsVal
  | varr (l : List String) : JsVal
deriving DecidableEq

/-- JavaScript `ToString`/`ToPrimitive` as used by string concatenation:
`undefined` prints as "undefined", an array joins its elements with ",". -/
def JsVal.toPrimString : JsVal → String
  | .vundef => "undefined"
  | .vstr s => s
  | .varr l => String.intercalate "," l

/-- JavaScript truthiness: `undefined` is falsy, a string is truthy iff
non-empty, an array (an object) is always truthy — even `["0"]`. -/
def JsVal.truthy : JsVal → Bool
  | .vundef => false
  | .vstr s => s != ""
  | .varr _ => true

/-- Digit value of a decimal digit character. -/
def decDigitVal (c : Char) : Option Nat :=
  if c.isDigit then some (c.toNat - 48) else none

/-- Digit value of a hexadecimal digit character. -/
def hexDigitVal (c : Char) : Option Nat :=
  if c.isDigit then some (c.toNat - 48)
  else if 'a' ≤ c ∧ c ≤ 'f' then some (c.toNat - 'a'.toNat + 10)
  else if 'A' ≤ c ∧ c ≤ 'F' then some (c.toNat - 'A'.toNat + 10)
  else none

/-- Accumulate a digit list into the number it denotes in the given base. -/
def digitsToNat (base : Nat) (ds : List Nat) : Nat :=
  ds.foldl (fun acc d => acc * base + d) 0

/-- Longest prefix of digit values under the given digit reader (the scan
`parseInt` performs: it stops at the first non-digit character). -/
def leadingDigits (dv : Char → Option Nat) : List Char → List Nat
  | [] => []
  | c :: rest =>
    match dv c with
    | some d => d :: leadingDigits dv rest
    | none => []

/-- JavaScript `ToNumber` on a string, restricted to the integer literal forms
(optional sign, decimal digits, surrounding whitespace; the empty or
all-whitespace string denotes 0). Non-integer numeric literal forms (decimal
points, exponents, hex) yield `none` (NaN) here; the feed flag fields this
coercion is applied to (`canceled`, values "0"/"1"/"-1") only take integer
forms, so the restriction is not observable on the embedded code paths. -/
def jsStrToNumber (s : String) : Option Int :=
  let cs := ((s.data.dropWhile Char.isWhitespace).reverse.dropWhile
    Char.isWhitespace).reverse
  match cs with
  | [] => some 0
  | _ =>
    let signAndDigits : Int × List Char :=
      match cs with
      | '-' :: rest => (-1, rest)
      | '+' :: rest => (1, rest)
      | _ => (1, cs)
    let ds := signAndDigits.2
    if !ds.isEmpty && ds.all Char.isDigit then
      some (signAndDigits.1 * (digitsToNat 10 (ds.map (fun c => c.toNat - 48)) : Int))
    else none

/-- JavaScript `ToNumber` on a deserializer value: `undefined` is NaN (`none`);
an array first converts to its comma-join (so `["1"]` coerces like "1"). -/
def JsVal.toNumber : JsVal → Option Int
  | .vundef => none
  | .vstr s => jsStrToNumber s
  | .varr l => jsStrToNumber (String.intercalate "," l)

/-- The JavaScript comparison `v <= 0` (any comparison against NaN is false). -/
def jsLeZero (v : JsVal) : Bool :=
  match v.toNumber with
  | some n => decide (n ≤ 0)
  | none => false

/-- The JavaScript loose equality `v == n` for an integer literal `n`: the
string or array operand is coerced with `ToNumber`; NaN equals nothing;
`undefined` is not loosely equal to any number. -/
def jsEqInt (v : JsVal) (n : Int) : Bool :=
  match v.toNumber with
  | some m => m == n
  | none => false

/-- JavaScript `parseInt(s)` with no radix argument: skip leading whitespace,
read an optional sign, honor a `0x`/`0X` hexadecimal prefix, then take the
longest run of digits; no digits at all means NaN (`none`). -/
def jsParseInt (s : String) : Option Int :=
  let cs := s.data.dropWhile Char.isWhitespace
  let signAndRest : Int × List Char :=
    match cs with
    | '-' :: rest => (-1, rest)
    | '+' :: rest => (1, rest)
    | _ => (1, cs)
  let baseAndRest : Nat × List Char :=
    match signAndRest.2 with
    | '0' :: 'x' :: rest => (16, rest)
    | '0' :: 'X' :: rest => (16, rest)
    | _ => (10, signAndRest.2)
  let dv := if baseAndRest.1 == 16 then hexDigitVal else decDigitVal
  let ds := leadingDigits dv baseAndRest.2
  if ds.isEmpty then none
  else some (signAndRest.1 * (digitsToNat baseAndRest.1 ds : Int))

/-- Replace the first occurrence of `pat` in a character list by `rep`,
the behavior of JavaScript `String.prototype.replace` with a string pattern. -/
def replFirstAux (pat rep : List Char) : List Char → List Char
  | [] => []
  | c :: rest =>
    if List.isPrefixOf pat (c :: rest) then
      rep ++ List.drop pat.length (c :: rest)
    else c :: replFirstAux pat rep rest

/-- JavaScript `s.replace(pat, rep)` with a string pattern: only the first
occurrence is replaced; if the pattern does not occur, `s` is returned. -/
def jsReplaceFirst (s pat rep : String) : String :=
  ⟨replFirstAux pat.data rep.data s.data⟩

/-- Number of (possibly overlapping) occurrences of `pat.data` starting at
each position of the list. -/
def countOccsFrom (pat : List Char) : List Char → Nat
  | [] => 0
  | c :: rest =>
    (if List.isPrefixOf pat (c :: rest) then 1 else 0) + countOccsFrom pat rest

/-- Number of positions of `s` at which the pattern `pat` occurs. -/
def countSubstr (s pat : String) : Nat :=
  countOccsFrom pat.data s.data

/-- One `arrival` element of the deserialized feed: each field is whatever
value the deserializer produced for the corresponding child (`undefined` when
the child is absent). -/
structure Arrival where
  route : JsVal
  headsign : JsVal
  stopTime : JsVal
  estimated : JsVal
  canceled : JsVal
deriving DecidableEq

/-- The deserialized top-level `stopTimes` structure; `arrival` is `none` when
the deserialized object has no `arrival` property (the
`typeof(result.stopTimes.arrival) == 'undefined'` test in `processXml`). -/
structure StopTimes where
  stop : JsVal
  timestamp : JsVal
  arrival : Option (List Arrival)
deriving DecidableEq

/-- The `Stop` slot object; `value` is `none` when `stop.value` is null or
undefined (the `stop.value == null` test). -/
structure Slot where
  value : Option String
deriving DecidableEq

/-- The part of the incoming intent the two stop handlers read:
`intent.slots.Stop`, which may itself be absent. -/
structure Intent where
  stopSlot : Option Slot
deriving DecidableEq

/-- A response emitted through the `response` object: `response.ask(speech,
reprompt)` keeps the session open; `response.tell` and `response.tellWithCard`
end it (a Tell outcome), the latter attaching a card with a title and a
content body. -/
inductive Outcome where
  | ask (speech reprompt : String) : Outcome
  | tell (speech : String) : Outcome
  | tellWithCard (speech cardTitle cardContent : String) : Outcome
deriving DecidableEq

/-- The speech text of an outcome. -/
def Outcome.speechText : Outcome → String
  | .ask s _ => s
  | .tell s => s
  | .tellWithCard s _ _ => s

/-- The card content of an outcome, when one is attached. -/
def Outcome.cardText : Outcome → Option String
  | .tellWithCard _ _ c => some c
  | _ => none

/-- Whether the outcome ends the session (Tell) rather than asking (Ask). -/
def Outcome.endsSession : Outcome → Bool
  | .ask _ _ => false
  | .tell _ => true
  | .tellWithCard _ _ _ => true

/-- The call `arrival.headsign.toString()` in `processXml`: a method call on
`undefined` raises a TypeError (modelled `Except.error ()`); a string returns
itself; an array joins with ",". -/
def headsignToString : JsVal → Except Unit String
  | .vundef => .error ()
  | .vstr s => .ok s
  | .varr l => .ok (String.intercalate "," l)

/-- One iteration of the `result.stopTimes.arrival.forEach` loop body of
`processXml`, threading the loop state `(speechOutput, foundCanceled,
foundArrival)`; the `routes` aggregation and `console.log` are elided (see the
file header). -/
def arrivalStep (st : String × Bool × Bool) (a : Arrival) :
    Except Unit (String × Bool × Bool) :=
  match headsignToString a.headsign with
  | .error e => .error e
  | .ok hs =>
    let improvedHeadsign := jsReplaceFirst hs "UH" "University of Hawaii"
    let out := st.1
    let foundCanceled := st.2.1
    let foundArrival := st.2.2
    -- canceled 0=not canceled 1=canceled -1=was canceled not anymore
    let next : String × Bool × Bool :=
      if jsLeZero a.canceled then
        let out1 := out ++ " Route " ++ a.route.toPrimString ++ " heading to "
          ++ improvedHeadsign ++ " arriving at " ++ a.stopTime.toPrimString
        -- estimated 0=scheduled time no GPS, 1=estimated time based on GPS
        let out2 := if a.estimated.truthy then out1 ++ " estimated by GPS"
          else out1 ++ " scheduled time no GPS"
        let out3 := if jsEqInt a.canceled (-1) then
          out2 ++ " was canceled not canceled anymore" else out2
        (out3, foundCanceled, true)
      else
        (out, true, foundArrival)
    let out4 := if !next.2.2 then
      if next.2.1 then next.1 ++ " Sorry, only canceled arrivals were found."
      else next.1 ++ " Sorry, no arrivals were returned."
    else next.1
    -- Add newline so card is more readable
    .ok (out4 ++ ".\n", next.2.1, next.2.2)

/-- The `forEach` loop of `processXml` over the arrival list. -/
def arrivalsLoop (st : String × Bool × Bool) :
    List Arrival → Except Unit (String × Bool × Bool)
  | [] => .ok st
  | a :: rest =>
    match arrivalStep st a with
    | .error e => .error e
    | .ok st2 => arrivalsLoop st2 rest

/-- The `processXml` translation function. Its input is the deserialized
result the `xml2js` callback receives: `none` models both a null result (XML
parse error) and a result object without a `stopTimes` property — in either
case `result.stopTimes.arrival` raises a TypeError that nothing in the module
catches, modelled `Except.error ()`. -/
def processXml (result : Option StopTimes) : Except Unit String :=
  match result with
  | none => .error ()
  | some st =>
    match st.arrival with
    | none =>
      .ok ("Sorry, no arrivals found for stop" ++ st.stop.toPrimString
        ++ ".  Are you sure this is a valid stop?")
    | some arrivals =>
      match arrivalsLoop
          ("Here are the arrivals for " ++ " bus stop "
            ++ st.stop.toPrimString ++ ".\n", false, false) arrivals with
      | .error e => .error e
      | .ok r => .ok r.1

/-- What the single outbound HTTP GET of `makeTheBusCall` produced: either a
successful body, already deserialized (the `res.on end` path), or a
transport-level failure (the `on error` path). -/
inductive TransportResult where
  | success (result : Option StopTimes) : TransportResult
  | failure : TransportResult
deriving DecidableEq

/-- `makeTheBusCall`, as a function of the one transport result its single
outbound request produced (the type records that exactly one request is made
and never retried): on success the body goes through `processXml`, on failure
the callback receives the fixed apology string. -/
def makeTheBusCall (tr : TransportResult) : Except Unit String :=
  match tr with
  | .success result => processXml result
  | .failure => .ok "Sorry there was an error contacting the bus service"

/-- The `responseCallback` closure of `getFinalBusResponse`:
`response.tellWithCard(speechOutput, "TheBusHonolulu", speechOutput)` — the
narration is passed as both the speech and the card content. -/
def renderBusResponse (speechOutput : String) : Outcome :=
  .tellWithCard speechOutput "TheBusHonolulu" speechOutput

/-- `getFinalBusResponse`: issue the request and respond with the narration. -/
def getFinalBusResponse (tr : TransportResult) : Except Unit Outcome :=
  (makeTheBusCall tr).map renderBusResponse

/-- `handleStopDialogRequest`, parameterized by the fetch continuation that
`getFinalBusResponse` stands for (so that non-invocation of the fetcher is
expressible as independence from this parameter): re-prompt when the slot is
absent, its value is null/undefined, or `parseInt` yields NaN; otherwise hand
the parsed integer to the fetch path. -/
def handleStopDialogRequest (fetch : Int → Except Unit Outcome)
    (intent : Intent) : Except Unit Outcome :=
  match intent.stopSlot with
  | none =>
    .ok (.ask "sorry, I did not hear the stop, please say that again"
      "please say the stop again")
  | some stop =>
    match stop.value with
    | none =>
      .ok (.ask "sorry, I did not hear the stop, please say that again"
        "please say the stop again")
    | some v =>
      match jsParseInt v with
      | none =>
        .ok (.ask "sorry, I did not hear the stop, please say that again"
          "please say the stop again")
      | some stopValue => fetch stopValue

/-- `handleOneshotBusRequest`: reads `intent.slots.Stop.value` without first
checking the slot, so an absent slot object raises a TypeError
(`Except.error ()`); `parseInt` of a null/undefined value is NaN; on NaN it
re-prompts with the "bus stop" wording; otherwise it hands the parsed integer
to the fetch path. -/
def handleOneshotBusRequest (fetch : Int → Except Unit Outcome)
    (intent : Intent) : Except Unit Outcome :=
  match intent.stopSlot with
  | none => .error ()
  | some stopSlot =>
    match (match stopSlot.value with
           | none => (none : Option Int)
           | some v => jsParseInt v) with
    | none =>
      .ok (.ask "sorry, I did not hear the bus stop, please say that again"
        "please say the bus stop again")
    | some stopValue => fetch stopValue

/-- The slot validation both handlers perform once the slot object is present,
extracted: `none` exactly when the dialog path (and, for a present slot, the
one-shot path) re-prompts instead of fetching. -/
def dialogStopValidation : Option Slot → Option Int
  | none => none
  | some slot =>
    match slot.value with
    | none => none
    | some v => jsParseInt v

/-- A full one-shot stop-request turn: `handleOneshotBusRequest` with the
fetch continuation instantiated by `getFinalBusResponse` under a given
transport result. -/
def oneshotTurn (intent : Intent) (tr : TransportResult) :
    Except Unit Outcome :=
  handleOneshotBusRequest (fun _stopValue => getFinalBusResponse tr) intent

/-- Every loop iteration only appends to the accumulated speech output. -/
theorem arrivalStep_extends (st : String × Bool × Bool) (a : Arrival)
    (r : String × Bool × Bool) (h : arrivalStep st a = .ok r) :
    ∃ t, r.1 = st.1 ++ t := by
  obtain ⟨out, fc, fa⟩ := st
  cases hh : headsignToString a.headsign with
  | error e => rw [arrivalStep.eq_def, hh] at h; exact absurd h (by simp)
  | ok hs =>
    cases hc : jsLeZero a.canceled <;>
      cases he : JsVal.truthy a.estimated <;>
        cases hq : jsEqInt a.canceled (-1) <;>
          cases fc <;> cases fa <;>
            simp only [arrivalStep, hh, hc, he, hq, Bool.not_true,
              Bool.not_false, Bool.false_eq_true, Bool.true_eq_false,
              if_true, if_false, ite_true, ite_false, Except.ok.injEq] at h <;>
          · subst h
            simp only [String.append_assoc]
            exact ⟨_, rfl⟩

/-- The whole loop only appends to the accumulated speech output. -/
theorem arrivalsLoop_extends (l : List Arrival) :
    ∀ st r, arrivalsLoop st l = .ok r → ∃ t, r.1 = st.1 ++ t := by
  induction l with
  | nil =>
    intro st r h
    simp only [arrivalsLoop, Except.ok.injEq] at h
    subst h
    exact ⟨"", (String.append_empty _).symm⟩
  | cons a rest ih =>
    intro st r h
    simp only [arrivalsLoop] at h
    cases hs : arrivalStep st a with
    | error e => rw [hs] at h; exact absurd h (by simp)
    | ok st2 =>
      rw [hs] at h
      obtain ⟨t1, ht1⟩ := arrivalStep_extends st a st2 hs
      obtain ⟨t2, ht2⟩ := ih st2 r h
      exact ⟨t1 ++ t2, by rw [ht2, ht1, String.append_assoc]⟩

/-- Every narration produced for a feed whose `arrival` field is present
starts with the fixed greeting prefix. -/
theorem processXml_here_prefix (stop ts : JsVal) (arrs : List Arrival)
    (s : String) (h : processXml (some ⟨stop, ts, some arrs⟩) = .ok s) :
    ∃ t, s = "Here are the arrivals for " ++ t := by
  simp only [processXml] at h
  cases hl : arrivalsLoop ("Here are the arrivals for " ++ " bus stop "
      ++ stop.toPrimString ++ ".\n", false, false) arrs with
  | error e => rw [hl] at h; exact absurd h (by simp)
  | ok r =>
    rw [hl] at h
    simp only [Except.ok.injEq] at h
    subst h
    obtain ⟨t, ht⟩ := arrivalsLoop_extends arrs _ r hl
    rw [ht]
    simp only [String.append_assoc]
    exact ⟨_, rfl⟩

/-- Claim C1 (code_bug): the claim demands the fallback sentence "Sorry, only
canceled arrivals were found." exactly once, after the full scan, for a feed
whose records are all canceled, the same single time for any record count.
The code evaluates the fallback check inside the per-record loop, so a feed
with two canceled records narrates the sentence twice (a one-record feed
narrates it once): the claim matches the documented intent and the code is
the slip. This theorem evaluates the code at the two-record failing input and
counts the sentence twice, and at the one-record input, counting it once. -/
theorem c1_fallback_repeated_per_canceled_record :
    processXml (some ⟨JsVal.vstr "214", JsVal.vundef,
      some [⟨JsVal.vstr "1", JsVal.vstr "UH Manoa", JsVal.vstr "9:35am",
          JsVal.vstr "1", JsVal.vstr "1"⟩,
        ⟨JsVal.vstr "2", JsVal.vstr "Kalihi", JsVal.vstr "9:45am",
          JsVal.vstr "0", JsVal.vstr "1"⟩]⟩)
      = .ok "Here are the arrivals for  bus stop 214.\n Sorry, only canceled arrivals were found..\n Sorry, only canceled arrivals were found..\n"
    ∧ countSubstr "Here are the arrivals for  bus stop 214.\n Sorry, only canceled arrivals were found..\n Sorry, only canceled arrivals were found..\n"
        "Sorry, only canceled arrivals were found." = 2
    ∧ processXml (some ⟨JsVal.vstr "214", JsVal.vundef,
      some [⟨JsVal.vstr "1", JsVal.vstr "UH Manoa", JsVal.vstr "9:35am",
          JsVal.vstr "1", JsVal.vstr "1"⟩]⟩)
      = .ok "Here are the arrivals for  bus stop 214.\n Sorry, only canceled arrivals were found..\n"
    ∧ countSubstr "Here are the arrivals for  bus stop 214.\n Sorry, only canceled arrivals were found..\n"
        "Sorry, only canceled arrivals were found." = 1 :=
  ⟨rfl, rfl, rfl, rfl⟩

/-- Claim C4, counterexample: for the malformed deserialization result that
is missing the top-level stopTimes structure, the translate operation does
not return a narration — `result.stopTimes.arrival` raises a TypeError that
propagates past the fetch boundary (modelled as `Except.error`), refuting the
claim that it returns the error narration as a total result. -/
theorem c4_missing_stoptimes_throws : processXml none = .error () := rfl

/-- Claim C4, amended: only the narrower malformation in which `stopTimes`
is present but its `arrival` field is missing is handled totally — there the
translate operation returns the feed-specific error narration, and the
fetcher passes it through without substituting its own generic message; a
deserialization result missing `stopTimes` itself makes the translate
operation throw past the boundary. -/
theorem c4_amended_total_only_without_arrival_field (stop ts : JsVal)
    (r : Option StopTimes) :
    processXml (some ⟨stop, ts, none⟩)
      = .ok ("Sorry, no arrivals found for stop" ++ stop.toPrimString
          ++ ".  Are you sure this is a valid stop?")
    ∧ makeTheBusCall (.success r) = processXml r
    ∧ processXml none = .error () :=
  ⟨rfl, rfl, rfl⟩

/-- Claim C5 (confirmed): on a transport-level failure the fetch yields
exactly the fixed string "Sorry there was an error contacting the bus
service" and the turn ends in a Tell outcome (tellWithCard ends the session);
no retry exists structurally — `makeTheBusCall` consumes the one transport
result of its single request. -/
theorem c5_transport_failure_fixed_tell :
    makeTheBusCall .failure
      = .ok "Sorry there was an error contacting the bus service"
    ∧ getFinalBusResponse .failure
      = .ok (.tellWithCard "Sorry there was an error contacting the bus service"
          "TheBusHonolulu" "Sorry there was an error contacting the bus service")
    ∧ Outcome.endsSession
        (.tellWithCard "Sorry there was an error contacting the bus service"
          "TheBusHonolulu" "Sorry there was an error contacting the bus service")
      = true :=
  ⟨rfl, rfl, rfl⟩

/-- Claim C6, counterexample: for the feed with stop "214" and no arrivals
field the code produces "...for stop214.  Are..." — no space between "stop"
and the substituted stop value and two spaces after the period — which is not
the text the claimed template "Sorry, no arrivals found for stop {stop}. Are
you sure this is a valid stop?" yields under substitution. -/
theorem c6_template_spacing_counterexample :
    processXml (some ⟨JsVal.vstr "214", JsVal.vundef, none⟩)
      = .ok "Sorry, no arrivals found for stop214.  Are you sure this is a valid stop?"
    ∧ "Sorry, no arrivals found for stop214.  Are you sure this is a valid stop?"
      ≠ "Sorry, no arrivals found for stop 214. Are you sure this is a valid stop?" :=
  ⟨rfl, by decide⟩

/-- Claim C6, amended: for every feed whose stopTimes structure is present
but has no arrivals field, the translate operation returns exactly the
template "Sorry, no arrivals found for stop{stop}.  Are you sure this is a
valid stop?" (no space before the substituted stop value, two spaces after
the first period), with the stop substituted from the feed, and this outcome
is distinct from every narration produced when an arrival list is present
(in particular from the zero-records-after-filtering fallback, which always
starts with the greeting prefix). -/
theorem c6_amended_no_arrivals_template (stop ts : JsVal) :
    processXml (some ⟨stop, ts, none⟩)
      = .ok ("Sorry, no arrivals found for stop" ++ stop.toPrimString
          ++ ".  Are you sure this is a valid stop?")
    ∧ ∀ arrs s2, processXml (some ⟨stop, ts, some arrs⟩) = .ok s2 →
      "Sorry, no arrivals found for stop" ++ stop.toPrimString
        ++ ".  Are you sure this is a valid stop?" ≠ s2 := by
  refine ⟨rfl, ?_⟩
  intro arrs s2 h2 heq
  obtain ⟨t, ht⟩ := processXml_here_prefix stop ts arrs s2 h2
  have hcontra : ("Sorry, no arrivals found for stop" ++ stop.toPrimString
      ++ ".  Are you sure this is a valid stop?").data.head?
      = ("Here are the arrivals for " ++ t).data.head? := by rw [heq, ht]
  have hSH : (some 'S' : Option Char) = some 'H' := hcontra
  exact absurd hSH (by decide)

/-- Claim C6 witness: the amended claim at stop "214" against the narration
of an all-canceled single-record feed (the zero-records-after-filtering
fallback), which indeed differs. -/
theorem c6_amended_witness :
    "Sorry, no arrivals found for stop" ++ (JsVal.vstr "214").toPrimString
      ++ ".  Are you sure this is a valid stop?"
    ≠ "Here are the arrivals for  bus stop 214.\n Sorry, only canceled arrivals were found..\n" :=
  (c6_amended_no_arrivals_template (JsVal.vstr "214") JsVal.vundef).2
    [⟨JsVal.vstr "1", JsVal.vstr "UH Manoa", JsVal.vstr "9:35am",
      JsVal.vstr "1", JsVal.vstr "1"⟩]
    "Here are the arrivals for  bus stop 214.\n Sorry, only canceled arrivals were found..\n"
    rfl

/-- Claim C7 (confirmed): the one-shot turn with slot value "214" over a feed
with one non-canceled arrival (route "1", headsign "UH Manoa", time "9:35am",
estimated flag truthy, canceled 0) ends in a Tell with a card, and the
narration contains the sentence "Route 1 heading to University of Hawaii
Manoa arriving at 9:35am estimated by GPS." with the known destination
abbreviation UH expanded. -/
theorem c7_oneshot_uh_manoa_scenario :
    oneshotTurn ⟨some ⟨some "214"⟩⟩ (.success (some ⟨JsVal.vstr "214",
      JsVal.vundef, some [⟨JsVal.vstr "1", JsVal.vstr "UH Manoa",
        JsVal.vstr "9:35am", JsVal.vstr "1", JsVal.vstr "0"⟩]⟩))
      = .ok (.tellWithCard
          "Here are the arrivals for  bus stop 214.\n Route 1 heading to University of Hawaii Manoa arriving at 9:35am estimated by GPS.\n"
          "TheBusHonolulu"
          "Here are the arrivals for  bus stop 214.\n Route 1 heading to University of Hawaii Manoa arriving at 9:35am estimated by GPS.\n")
    ∧ countSubstr
        "Here are the arrivals for  bus stop 214.\n Route 1 heading to University of Hawaii Manoa arriving at 9:35am estimated by GPS.\n"
        "Route 1 heading to University of Hawaii Manoa arriving at 9:35am estimated by GPS." = 1
    ∧ Outcome.endsSession (.tellWithCard
        "Here are the arrivals for  bus stop 214.\n Route 1 heading to University of Hawaii Manoa arriving at 9:35am estimated by GPS.\n"
        "TheBusHonolulu"
        "Here are the arrivals for  bus stop 214.\n Route 1 heading to University of Hawaii Manoa arriving at 9:35am estimated by GPS.\n")
      = true :=
  ⟨rfl, rfl, rfl⟩

/-- Claim C8 (confirmed): whenever the fetch produces a narration S, the
rendered reply is the Tell-with-card outcome whose speech field and card
content field both hold S byte-identical (no separate card text exists on
this path — the code passes the narration twice). -/
theorem c8_tell_card_roundtrip (S : String) (tr : TransportResult)
    (h : makeTheBusCall tr = .ok S) :
    getFinalBusResponse tr = .ok (renderBusResponse S)
    ∧ (renderBusResponse S).speechText = S
    ∧ (renderBusResponse S).cardText = some S := by
  refine ⟨?_, rfl, rfl⟩
  rw [getFinalBusResponse, h]
  rfl

/-- Claim C8 witness: the round trip at the concrete transport-failure
narration. -/
theorem c8_tell_card_roundtrip_witness :
    getFinalBusResponse TransportResult.failure
      = .ok (renderBusResponse "Sorry there was an error contacting the bus service")
    ∧ (renderBusResponse "Sorry there was an error contacting the bus service").speechText
      = "Sorry there was an error contacting the bus service"
    ∧ (renderBusResponse "Sorry there was an error contacting the bus service").cardText
      = some "Sorry there was an error contacting the bus service" :=
  c8_tell_card_roundtrip "Sorry there was an error contacting the bus service"
    TransportResult.failure rfl

/-- Claim C2, counterexample: on the same non-numeric stop value the two
entry paths do NOT produce the identical re-prompt pair — the one-shot path
says "bus stop" where the dialog path says "stop", in both the speech and the
reprompt text. -/
theorem c2_reprompt_texts_differ :
    handleOneshotBusRequest (fun _ => .ok (.tell "unused"))
      ⟨some ⟨some "two one four"⟩⟩
      = .ok (.ask "sorry, I did not hear the bus stop, please say that again"
          "please say the bus stop again")
    ∧ handleStopDialogRequest (fun _ => .ok (.tell "unused"))
      ⟨some ⟨some "two one four"⟩⟩
      = .ok (.ask "sorry, I did not hear the stop, please say that again"
          "please say the stop again")
    ∧ "sorry, I did not hear the bus stop, please say that again"
      ≠ "sorry, I did not hear the stop, please say that again" :=
  ⟨rfl, rfl, by decide⟩

/-- Claim C2, amended: for every stop-slot value that is absent (null or
undefined under a present slot object) or non-numeric, each entry path
produces a fixed re-prompt pair, but the pairs differ between the paths: the
dialog path says speech "sorry, I did not hear the stop, please say that
again" with reprompt "please say the stop again", while the one-shot path
says speech "sorry, I did not hear the bus stop, please say that again" with
reprompt "please say the bus stop again" — identical except for the word
"bus". -/
theorem c2_amended_reprompt_pairs (v : Option String)
    (f g : Int → Except Unit Outcome)
    (h : v = none ∨ ∃ s, v = some s ∧ jsParseInt s = none) :
    handleOneshotBusRequest f ⟨some ⟨v⟩⟩
      = .ok (.ask "sorry, I did not hear the bus stop, please say that again"
          "please say the bus stop again")
    ∧ handleStopDialogRequest g ⟨some ⟨v⟩⟩
      = .ok (.ask "sorry, I did not hear the stop, please say that again"
          "please say the stop again") := by
  rcases h with rfl | ⟨s, rfl, hs⟩
  · exact ⟨rfl, rfl⟩
  · exact ⟨by simp [handleOneshotBusRequest, hs],
      by simp [handleStopDialogRequest, hs]⟩

/-- Claim C2 witness: the amended claim at the concrete non-numeric value
"oops". -/
theorem c2_amended_reprompt_pairs_witness :
    handleOneshotBusRequest (fun _ => .ok (.tell "w")) ⟨some ⟨some "oops"⟩⟩
      = .ok (.ask "sorry, I did not hear the bus stop, please say that again"
          "please say the bus stop again")
    ∧ handleStopDialogRequest (fun _ => .ok (.tell "w")) ⟨some ⟨some "oops"⟩⟩
      = .ok (.ask "sorry, I did not hear the stop, please say that again"
          "please say the stop again") :=
  c2_amended_reprompt_pairs (some "oops") (fun _ => .ok (.tell "w"))
    (fun _ => .ok (.tell "w")) (Or.inr ⟨"oops", rfl, rfl⟩)

/-- Claim C3, counterexample: a stop value parsing to the non-positive
integer -5 does not yield a re-prompt — the dialog path hands -5 straight to
the fetch continuation, whose outcome is returned, so the Arrival Fetcher IS
invoked for a non-positive stop identifier, refuting the claim. -/
theorem c3_nonpositive_reaches_fetch :
    handleStopDialogRequest
      (fun n => .ok (.tell (if n = -5 then "fetched minus five" else "other")))
      ⟨some ⟨some "-5"⟩⟩
      = .ok (.tell "fetched minus five") := rfl

/-- Claim C3, amended: validation errors exactly when the slot is absent, its
value is null/undefined, or `parseInt` yields NaN; in those cases the dialog
path re-prompts without the fetch continuation being invoked (its result is
independent of that continuation), and the one-shot path behaves the same for
a present slot (an absent slot object instead raises a TypeError before
validation). Whenever `parseInt` yields any integer n — including
non-positive values and numeric-prefix strings such as "12abc" — both paths
invoke the fetch path with n. -/
theorem c3_amended_validation_gate (i : Intent)
    (f g : Int → Except Unit Outcome) :
    (dialogStopValidation i.stopSlot = none →
      handleStopDialogRequest f i
        = .ok (.ask "sorry, I did not hear the stop, please say that again"
            "please say the stop again")
      ∧ handleStopDialogRequest f i = handleStopDialogRequest g i)
    ∧ (∀ n, dialogStopValidation i.stopSlot = some n →
      handleStopDialogRequest f i = f n)
    ∧ (i.stopSlot = none → handleOneshotBusRequest f i = .error ())
    ∧ (∀ slot, i.stopSlot = some slot → dialogStopValidation (some slot) = none →
      handleOneshotBusRequest f i
        = .ok (.ask "sorry, I did not hear the bus stop, please say that again"
            "please say the bus stop again")
      ∧ handleOneshotBusRequest f i = handleOneshotBusRequest g i)
    ∧ (∀ slot n, i.stopSlot = some slot →
      dialogStopValidation (some slot) = some n →
      handleOneshotBusRequest f i = f n) := by
  obtain ⟨slotOpt⟩ := i
  rcases slotOpt with _ | ⟨vOpt⟩
  · refine ⟨fun _ => ⟨rfl, rfl⟩, ?_, fun _ => rfl, ?_, ?_⟩
    · intro n h; exact absurd h (by simp [dialogStopValidation])
    · intro slot h; exact absurd h (by simp)
    · intro slot n h; exact absurd h (by simp)
  · rcases vOpt with _ | ⟨s⟩
    · refine ⟨fun _ => ⟨rfl, rfl⟩, ?_, ?_, ?_, ?_⟩
      · intro n h; exact absurd h (by simp [dialogStopValidation])
      · intro h; exact absurd h (by simp)
      · intro slot h _
        cases h
        exact ⟨rfl, rfl⟩
      · intro slot n h hv
        cases h
        exact absurd hv (by simp [dialogStopValidation])
    · cases hp : jsParseInt s with
      | none =>
        refine ⟨?_, ?_, ?_, ?_, ?_⟩
        · intro _
          constructor <;> simp [handleStopDialogRequest, hp]
        · intro n h
          simp [dialogStopValidation, hp] at h
        · intro h; exact absurd h (by simp)
        · intro slot h _
          cases h
          constructor <;> simp [handleOneshotBusRequest, hp]
        · intro slot n h hv
          cases h
          simp [dialogStopValidation, hp] at hv
      | some m =>
        refine ⟨?_, ?_, ?_, ?_, ?_⟩
        · intro h
          simp [dialogStopValidation, hp] at h
        · intro n h
          simp only [dialogStopValidation, hp, Option.some.injEq] at h
          subst h
          simp [handleStopDialogRequest, hp]
        · intro h; exact absurd h (by simp)
        · intro slot h hv
          cases h
          simp [dialogStopValidation, hp] at hv
        · intro slot n h hv
          cases h
          simp only [dialogStopValidation, hp, Option.some.injEq] at hv
          subst hv
          simp [handleOneshotBusRequest, hp]

/-- Claim C3 witness: the amended claim at slot value "0" — `parseInt`
yields 0, and the fetcher is invoked with 0. -/
theorem c3_amended_validation_gate_witness :
    handleStopDialogRequest (fun n => Except.ok (Outcome.tell (toString n)))
      ⟨some ⟨some "0"⟩⟩
      = (fun n => Except.ok (Outcome.tell (toString n))) 0 :=
  (c3_amended_validation_gate ⟨some ⟨some "0"⟩⟩
    (fun n => Except.ok (Outcome.tell (toString n)))
    (fun n => Except.ok (Outcome.tell (toString n)))).2.1 0 rfl

/-- Claim C9 (confirmed): the terminal ".\n" is appended unconditionally for
every record the loop processes, and a canceled record processed after some
non-canceled arrival has already been narrated contributes exactly the bare
".\n" fragment — no sentence text — to the accumulated narration. -/
theorem c9_unconditional_dot_newline (a : Arrival) :
    (∀ st r, arrivalStep st a = .ok r → ∃ p, r.1 = p ++ ".\n")
    ∧ (∀ out fc, jsLeZero a.canceled = false → a.headsign ≠ JsVal.vundef →
      arrivalStep (out, fc, true) a = .ok (out ++ ".\n", true, true)) := by
  constructor
  · intro st r h
    obtain ⟨out, fc, fa⟩ := st
    cases hh : headsignToString a.headsign with
    | error e => rw [arrivalStep.eq_def, hh] at h; exact absurd h (by simp)
    | ok hs =>
      cases hc : jsLeZero a.canceled <;>
        cases he : JsVal.truthy a.estimated <;>
          cases hq : jsEqInt a.canceled (-1) <;>
            cases fc <;> cases fa <;>
              simp only [arrivalStep, hh, hc, he, hq, Bool.not_true,
                Bool.not_false, Bool.false_eq_true, Bool.true_eq_false,
                if_true, if_false, ite_true, ite_false,
                Except.ok.injEq] at h <;>
            · subst h
              exact ⟨_, rfl⟩
  · intro out fc hcanc hhs
    cases hv : a.headsign with
    | vundef => exact absurd hv hhs
    | vstr s => simp [arrivalStep, headsignToString, hv, hcanc]
    | varr l => simp [arrivalStep, headsignToString, hv, hcanc]

/-- Claim C9 witness: a canceled record (canceled "1", headsign "Kalihi")
processed in a state where an arrival was already narrated appends the bare
".\n" and nothing else. -/
theorem c9_unconditional_dot_newline_witness :
    arrivalStep ("x", false, true)
      ⟨JsVal.vstr "2", JsVal.vstr "Kalihi", JsVal.vstr "9:45am",
        JsVal.vstr "0", JsVal.vstr "1"⟩
      = .ok ("x" ++ ".\n", true, true)
    ∧ ∃ p, ("x" ++ ".\n" : String) = p ++ ".\n" :=
  ⟨(c9_unconditional_dot_newline _).2 "x" false rfl (by decide),
   (c9_unconditional_dot_newline
      ⟨JsVal.vstr "2", JsVal.vstr "Kalihi", JsVal.vstr "9:45am",
        JsVal.vstr "0", JsVal.vstr "1"⟩).1 ("x", false, true) _
     ((c9_unconditional_dot_newline _).2 "x" false rfl (by decide))⟩

/-- Claim C10 (confirmed): for a non-canceled record whose estimated flag is
a non-empty string or a singleton array — including the value "0", which the
feed documents as schedule-only — the narrated sentence carries the clause
" estimated by GPS" and never " scheduled time no GPS", because the branch
tests JavaScript truthiness of the raw field rather than comparing it with
the flag values 0 and 1. -/
theorem c10_truthy_estimated_says_gps (out : String) (fc fa : Bool)
    (a : Arrival) (hs : String)
    (hhs : headsignToString a.headsign = .ok hs)
    (hcanc : jsLeZero a.canceled = true)
    (hest : (∃ s, a.estimated = JsVal.vstr s ∧ s ≠ "")
      ∨ ∃ s, a.estimated = JsVal.varr [s]) :
    arrivalStep (out, fc, fa) a = .ok
      ((if jsEqInt a.canceled (-1) then
          out ++ " Route " ++ a.route.toPrimString ++ " heading to "
            ++ jsReplaceFirst hs "UH" "University of Hawaii"
            ++ " arriving at " ++ a.stopTime.toPrimString
            ++ " estimated by GPS" ++ " was canceled not canceled anymore"
        else
          out ++ " Route " ++ a.route.toPrimString ++ " heading to "
            ++ jsReplaceFirst hs "UH" "University of Hawaii"
            ++ " arriving at " ++ a.stopTime.toPrimString
            ++ " estimated by GPS")
        ++ ".\n", fc, true) := by
  have he : JsVal.truthy a.estimated = true := by
    rcases hest with ⟨s, h1, h2⟩ | ⟨s, h1⟩ <;> rw [h1] <;>
      simp [JsVal.truthy]
    exact h2
  simp [arrivalStep, hhs, hcanc, he]

/-- Claim C10 witness: the record with estimated flag "0" (schedule-only in
the feed documentation) is narrated with " estimated by GPS" and without
" scheduled time no GPS". -/
theorem c10_truthy_estimated_says_gps_witness :
    arrivalStep ("", false, false)
      ⟨JsVal.vstr "1", JsVal.vstr "UH Manoa", JsVal.vstr "9:35am",
        JsVal.vstr "0", JsVal.vstr "0"⟩
      = .ok (" Route 1 heading to University of Hawaii Manoa arriving at 9:35am estimated by GPS.\n",
          false, true)
    ∧ countSubstr
        " Route 1 heading to University of Hawaii Manoa arriving at 9:35am estimated by GPS.\n"
        " scheduled time no GPS" = 0 :=
  ⟨(c10_truthy_estimated_says_gps "" false false
      ⟨JsVal.vstr "1", JsVal.vstr "UH Manoa", JsVal.vstr "9:35am",
        JsVal.vstr "0", JsVal.vstr "0"⟩
      "UH Manoa" rfl rfl (Or.inl ⟨"0", rfl, by decide⟩)).trans (by rfl),
   rfl⟩
